import Mathlib

/-!
Verification of the NFS-vs-direct benchmark orchestrator.

The repository's observable slice is the CLI entry point
`src/src/__main__.py`; the orchestration core it delegates to
(`benchmark.config.BenchmarkConfig`, `benchmark.runner.BenchmarkRunner`,
`benchmark.infrastructure.InfrastructureManager`) is not part of the
sources.  Functions translated from `__main__.py` are marked
"Translated from"; components absent from the sources are marked
"Modelled from the spec" and follow the specification's words.
-/

namespace NfsBench

/-- Storage type tag of a storage configuration (`direct` or `nfs`). -/
inductive StorageType
  | direct
  | nfs
deriving DecidableEq, Repr

/-- NFS protocol version (`v3` or `v4`), as accepted by the CLI choices. -/
inductive NfsVersion
  | v3
  | v4
deriving DecidableEq, Repr

/-- A storage configuration: a type tag, and for `nfs` a protocol version. -/
structure StorageConfig where
  type : StorageType
  version : Option NfsVersion
deriving DecidableEq, Repr

/-- A database entry of the configuration: engine kind (a raw string from
the configuration file) and its enabled flag. -/
structure DatabaseSpec where
  kind : String
  enabled : Bool
deriving DecidableEq, Repr

/-- A scenario entry of the configuration: name and enabled flag. -/
structure ScenarioSpec where
  name : String
  enabled : Bool
deriving DecidableEq, Repr

/-- The in-memory configuration model built from the YAML data
(`BenchmarkConfig(config_data)`): global output directory, databases,
scenarios, storage types and configured NFS versions. -/
structure BenchmarkConfig where
  output_dir : String
  databases : List DatabaseSpec
  scenarios : List ScenarioSpec
  storage_types : List StorageType
  nfs_versions : List NfsVersion
deriving DecidableEq, Repr

/-- Translated from `run` in `src/src/__main__.py` (lines 95-96): when an
output directory is passed, override `global_config` with it. -/
def overrideOutputDir (c : BenchmarkConfig) (output : Option String) : BenchmarkConfig :=
  match output with
  | none => c
  | some o => { c with output_dir := o }

/-- Translated from `run` in `src/src/__main__.py` (lines 97-100): when a
non-empty `--databases` filter is passed, every database's enabled flag is
set to its membership in the filter. -/
def overrideDatabases (c : BenchmarkConfig) (dbs : List String) : BenchmarkConfig :=
  if dbs.isEmpty then c
  else { c with databases :=
          c.databases.map (fun d => { d with enabled := dbs.contains d.kind }) }

/-- Translated from `run` in `src/src/__main__.py` (lines 101-106): when a
non-empty `--scenarios` filter is passed, keep only the scenarios whose
name is in the filter. -/
def overrideScenarios (c : BenchmarkConfig) (names : List String) : BenchmarkConfig :=
  if names.isEmpty then c
  else { c with scenarios := c.scenarios.filter (fun s => names.contains s.name) }

/-- Translated from `run` in `src/src/__main__.py` (lines 107-108): when a
non-empty `--nfs-versions` filter is passed, replace the configured
version list. -/
def overrideNfsVersions (c : BenchmarkConfig) (vs : List NfsVersion) : BenchmarkConfig :=
  if vs.isEmpty then c
  else { c with nfs_versions := vs }

/-- Translated from `run` in `src/src/__main__.py` (lines 94-108): the CLI
overrides applied in source order (output, databases, scenarios,
nfs versions). -/
def appliedConfig (raw : BenchmarkConfig) (output : Option String)
    (dbs : List String) (scens : List String) (vs : List NfsVersion) :
    BenchmarkConfig :=
  overrideNfsVersions (overrideScenarios (overrideDatabases (overrideOutputDir raw output) dbs) scens) vs

/-- One run unit of the execution plan: one database engine, one storage
configuration, one scenario. -/
structure RunUnit where
  database : String
  storage : StorageConfig
  scenario : String
deriving DecidableEq, Repr

/-- Modelled from the spec: expansion of the storage-type list into
storage configurations — `direct` yields one configuration, `nfs` yields
one configuration per configured protocol version, in list order
(the Execution Plan Builder lives in `benchmark/runner.py`, absent from
the sources). -/
def expandStorage (versions : List NfsVersion) : List StorageType → List StorageConfig
  | [] => []
  | StorageType.direct :: rest =>
      ⟨StorageType.direct, none⟩ :: expandStorage versions rest
  | StorageType.nfs :: rest =>
      versions.map (fun v => ⟨StorageType.nfs, some v⟩) ++ expandStorage versions rest

/-- The storage configurations of a configuration model. -/
def storageConfigs (c : BenchmarkConfig) : List StorageConfig :=
  expandStorage c.nfs_versions c.storage_types

/-- Modelled from the spec: the Execution Plan Builder (absent from the
sources) expands enabled databases (outer) × storage configurations
(middle) × enabled scenarios (inner), in stable list order. -/
def buildPlan (c : BenchmarkConfig) : List RunUnit :=
  (c.databases.filter (fun d => d.enabled)).flatMap (fun d =>
    (storageConfigs c).flatMap (fun st =>
      (c.scenarios.filter (fun s => s.enabled)).map (fun s =>
        ⟨d.kind, st, s.name⟩)))

/-- The plan-size expression of the specification:
enabled databases × enabled scenarios × (non-nfs storage types + nfs
indicator × configured NFS versions). -/
def planSizeFormula (c : BenchmarkConfig) : Nat :=
  (c.databases.filter (fun d => d.enabled)).length *
    ((c.scenarios.filter (fun s => s.enabled)).length *
      ((c.storage_types.filter (fun t => t != StorageType.nfs)).length +
        (if StorageType.nfs ∈ c.storage_types then 1 else 0) * c.nfs_versions.length))

/-- The specification's example configuration: postgresql enabled, mysql
disabled, storage types direct and nfs, one NFS version v3, one enabled
scenario read_heavy. -/
def exampleConfig : BenchmarkConfig where
  output_dir := "results"
  databases := [⟨"postgresql", true⟩, ⟨"mysql", false⟩]
  scenarios := [⟨"read_heavy", true⟩]
  storage_types := [StorageType.direct, StorageType.nfs]
  nfs_versions := [NfsVersion.v3]

/-- An execution plan: ordered run units plus metadata (generation
timestamp and total count), per the spec's data model. -/
structure ExecutionPlan where
  units : List RunUnit
  timestamp : Nat
  totalCount : Nat
deriving DecidableEq, Repr

/-- Modelled from the spec: `build(ConfigurationModel) -> ExecutionPlan`
with generation-time metadata; the unit sequence is a function of the
configuration alone. -/
def buildExecutionPlan (c : BenchmarkConfig) (now : Nat) : ExecutionPlan :=
  ⟨buildPlan c, now, (buildPlan c).length⟩

/-- Configuration validation errors, per the spec's taxonomy. -/
inductive ConfigError
  | unknownEngineKind
  | duplicateScenarioName
  | emptyEnabledSet
  | malformedStorageOption
deriving DecidableEq, Repr

/-- The engine kinds the CLI recognizes (`click.Choice` of the
`--databases` option). -/
def recognizedKinds : List String := ["postgresql", "mysql", "sqlite"]

/-- Whether some scenario name occurs twice in the list. -/
def hasDupName : List String → Bool
  | [] => false
  | x :: xs => xs.contains x || hasDupName xs

/-- Some configured database kind is not a recognized engine kind. -/
def hasUnknownKind (c : BenchmarkConfig) : Bool :=
  c.databases.any (fun d => !(recognizedKinds.contains d.kind))

/-- Some scenario name is duplicated. -/
def hasDupScenario (c : BenchmarkConfig) : Bool :=
  hasDupName (c.scenarios.map (fun s => s.name))

/-- The enabled database set or the enabled scenario set is empty. -/
def emptyEnabled (c : BenchmarkConfig) : Bool :=
  (c.databases.filter (fun d => d.enabled)).isEmpty ||
    (c.scenarios.filter (fun s => s.enabled)).isEmpty

/-- The storage options are malformed: no storage type at all, or nfs
requested with no configured version. -/
def badStorage (c : BenchmarkConfig) : Bool :=
  c.storage_types.isEmpty ||
    (c.storage_types.contains StorageType.nfs && c.nfs_versions.isEmpty)

/-- Modelled from the spec: Configuration Model validation
(`benchmark/config.py`, absent from the sources) — fails with a
ConfigError on unknown engine kind, duplicate scenario name, empty
enabled set after filtering, or malformed storage option. -/
def validate (c : BenchmarkConfig) : Except ConfigError Unit :=
  if hasUnknownKind c then Except.error ConfigError.unknownEngineKind
  else if hasDupScenario c then Except.error ConfigError.duplicateScenarioName
  else if emptyEnabled c then Except.error ConfigError.emptyEnabledSet
  else if badStorage c then Except.error ConfigError.malformedStorageOption
  else Except.ok ()

/-- Modelled from the spec: the run pipeline after CLI parsing — apply the
overrides, validate the overridden model again, and build the plan only
from a valid model. -/
def runPipeline (raw : BenchmarkConfig) (output : Option String)
    (dbs : List String) (scens : List String) (vs : List NfsVersion) :
    Except ConfigError (List RunUnit) :=
  let c := appliedConfig raw output dbs scens vs
  match validate c with
  | Except.error e => Except.error e
  | Except.ok _ => Except.ok (buildPlan c)

/-- Whether an Except value is a success. -/
def exceptIsOk : Except ConfigError (List RunUnit) → Bool
  | Except.ok _ => true
  | Except.error _ => false

/-- Service lifecycle states, per the spec's ServiceState. -/
inductive ServiceStatus
  | Stopped
  | Starting
  | Running
  | Stopping
  | Failed
deriving DecidableEq, Repr

/-- Infrastructure errors of the lifecycle API. -/
inductive InfraError
  | timeout
  | unavailable
deriving DecidableEq, Repr

/-- The state owned by the Infrastructure Manager: per-service status
(an association list, absent services are Stopped) and the set of active
client mounts. -/
structure InfraState where
  services : List (String × ServiceStatus)
  mounts : List String
deriving DecidableEq, Repr

/-- The status of a named service (Stopped when unknown). -/
def lookupStatus (st : InfraState) (name : String) : ServiceStatus :=
  (st.services.lookup name).getD ServiceStatus.Stopped

/-- Replace the status of a named service. -/
def setStatus (st : InfraState) (name : String) (s : ServiceStatus) : InfraState :=
  { st with services := (name, s) :: st.services.filter (fun p => p.1 ≠ name) }

/-- Record a client mount for a service, without duplicating an existing
mount. -/
def addMount (st : InfraState) (name : String) : InfraState :=
  if st.mounts.contains name then st else { st with mounts := name :: st.mounts }

/-- Modelled from the spec: `startService` of the Infrastructure Manager
(`benchmark/infrastructure.py`, absent from the sources).  If the service
is already Running the call is a no-op success; otherwise it transitions
through Starting to Running when the bounded health check succeeds
(`healthy`), establishing the mount for a mount-backed service without
double-mounting; a failed health check yields a Timeout error and leaves
the state Failed. -/
def startService (st : InfraState) (name : String) (isMountService : Bool)
    (healthy : Bool) : Except InfraError Unit × InfraState :=
  if lookupStatus st name = ServiceStatus.Running then (Except.ok (), st)
  else if healthy then
    let st1 := setStatus st name ServiceStatus.Running
    (Except.ok (), if isMountService then addMount st1 name else st1)
  else (Except.error InfraError.timeout, setStatus st name ServiceStatus.Failed)

/-- Modelled from the spec: `show_execution_plan` is a pure projection of
the execution plan to its displayed units; it performs no infrastructure
calls, so it returns the state it was given. -/
def showExecutionPlan (c : BenchmarkConfig) (st : InfraState) :
    List RunUnit × InfraState :=
  (buildPlan c, st)

/-- Translated from the dry-run branch of `run` in `src/src/__main__.py`
(lines 113-115): build the runner from the overridden configuration and
show the execution plan, touching nothing else. -/
def runDryRunBranch (raw : BenchmarkConfig) (output : Option String)
    (dbs : List String) (scens : List String) (vs : List NfsVersion)
    (st : InfraState) : List RunUnit × InfraState :=
  showExecutionPlan (appliedConfig raw output dbs scens vs) st

/-- Status of one run result, per the spec's RunResult. -/
inductive RunStatus
  | Success
  | Failed
  | Skipped
  | TimedOut
deriving DecidableEq, Repr

/-- One recorded run result: the unit it belongs to and its status. -/
structure RunResult where
  unit : RunUnit
  status : RunStatus
deriving DecidableEq, Repr

/-- What happens to one run unit when executed: driver success, an
infrastructure error (fatal or not), a driver error, or a timeout. -/
inductive UnitOutcome
  | success
  | infraFailure (fatal : Bool)
  | driverFailure
  | timedOut
deriving DecidableEq, Repr

/-- The RunResult status recorded for a unit outcome. -/
def outcomeStatus : UnitOutcome → RunStatus
  | UnitOutcome.success => RunStatus.Success
  | UnitOutcome.infraFailure _ => RunStatus.Failed
  | UnitOutcome.driverFailure => RunStatus.Failed
  | UnitOutcome.timedOut => RunStatus.TimedOut

/-- Whether an outcome is classified Fatal for the session. -/
def isFatal : UnitOutcome → Bool
  | UnitOutcome.infraFailure f => f
  | _ => false

/-- Modelled from the spec: the Benchmark Runner session loop
(`benchmark/runner.py`, absent from the sources) — execute the plan's
units one at a time in plan order; every unit's result is recorded in its
slot (Failed and TimedOut included); a non-fatal failure never aborts the
session, a Fatal error halts it after recording the failing unit.  The
environment `env` assigns each unit the outcome its execution produces. -/
def runSession (env : RunUnit → UnitOutcome) : List RunUnit → List RunResult
  | [] => []
  | u :: rest =>
    let o := env u
    let r : RunResult := ⟨u, outcomeStatus o⟩
    if isFatal o then [r] else r :: runSession env rest

/-- Translated from the try-block of `run` in `src/src/__main__.py`
(lines 113-131): how one invocation of the run command ends. -/
inductive TryOutcome
  | dryRun
  | results (outputDir : String)
  | noResults
  | raised (msg : String)
deriving DecidableEq, Repr

/-- Translated from `run` in `src/src/__main__.py` (lines 113-131): the
process exit code — the dry-run branch and a truthy `run_all` result fall
through to exit 0; a falsy result and any caught exception call
`sys.exit(1)`. -/
def runExitCode : TryOutcome → Nat
  | TryOutcome.dryRun => 0
  | TryOutcome.results _ => 0
  | TryOutcome.noResults => 1
  | TryOutcome.raised _ => 1

/-- What one invocation of the stop command did: its exit code, whether
`stop_all` was called, and the resulting infrastructure state. -/
structure StopOutcome where
  exitCode : Nat
  stopAllCalled : Bool
  state : InfraState
deriving Repr

/-- Translated from `stop` in `src/src/__main__.py` (lines 208-225):
without `--force` the operator is prompted; a declined prompt returns
before an InfrastructureManager is constructed, so `stop_all` is never
called and the process exits 0.  Otherwise `stop_all` runs (its body,
absent from the sources, is the parameter `stopAllImpl`); an exception
exits 1. -/
def stopCommand (force : Bool) (confirmAnswer : Bool) (st : InfraState)
    (stopAllImpl : InfraState → Except String InfraState) : StopOutcome :=
  if !force && !confirmAnswer then ⟨0, false, st⟩
  else
    match stopAllImpl st with
    | Except.ok st1 => ⟨0, true, st1⟩
    | Except.error _ => ⟨1, true, st⟩

/-- A configuration with an unrecognized engine kind. -/
def cfgUnknown : BenchmarkConfig where
  output_dir := "r"
  databases := [⟨"oracle", true⟩]
  scenarios := [⟨"s", true⟩]
  storage_types := [StorageType.direct]
  nfs_versions := []

/-- A configuration with a duplicated scenario name. -/
def cfgDup : BenchmarkConfig where
  output_dir := "r"
  databases := [⟨"postgresql", true⟩]
  scenarios := [⟨"s", true⟩, ⟨"s", true⟩]
  storage_types := [StorageType.direct]
  nfs_versions := []

/-- A configuration whose enabled scenario set is empty. -/
def cfgEmptyEnabled : BenchmarkConfig where
  output_dir := "r"
  databases := [⟨"postgresql", true⟩]
  scenarios := [⟨"s", false⟩]
  storage_types := [StorageType.direct]
  nfs_versions := []

/-- A configuration requesting nfs storage with no configured version. -/
def cfgBadStorage : BenchmarkConfig where
  output_dir := "r"
  databases := [⟨"postgresql", true⟩]
  scenarios := [⟨"s", true⟩]
  storage_types := [StorageType.nfs]
  nfs_versions := []

theorem length_flatMap_const {α β : Type} (l : List α) (f : α → List β) (k : Nat)
    (h : ∀ a ∈ l, (f a).length = k) :
    (l.flatMap f).length = l.length * k := by
  induction l with
  | nil => simp
  | cons x xs ih =>
    have hx := h x (List.mem_cons_self x xs)
    have hxs := ih (fun a ha => h a (List.mem_cons_of_mem _ ha))
    simp only [List.flatMap_cons, List.length_append, List.length_cons, hx, hxs,
      Nat.succ_mul]
    omega

theorem expandStorage_length (V : List NfsVersion) :
    ∀ ts : List StorageType, ts.Nodup →
      (expandStorage V ts).length =
        (ts.filter (fun t => t != StorageType.nfs)).length +
          (if StorageType.nfs ∈ ts then 1 else 0) * V.length := by
  intro ts
  induction ts with
  | nil => intro _; simp [expandStorage]
  | cons t rest ih =>
    intro h
    have hrest := ih (List.nodup_cons.mp h).2
    cases t with
    | direct =>
      simp only [expandStorage, List.length_cons, hrest, List.filter_cons,
        List.mem_cons]
      simp
      omega
    | nfs =>
      have hnotin : StorageType.nfs ∉ rest := (List.nodup_cons.mp h).1
      simp only [expandStorage, List.length_append, List.length_map, hrest,
        List.filter_cons, List.mem_cons]
      simp [hnotin]
      omega

theorem map_unit_of_map_mk (env : RunUnit → UnitOutcome) (l : List RunUnit) :
    (l.map (fun u => (⟨u, outcomeStatus (env u)⟩ : RunResult))).map
        (fun r => r.unit) = l := by
  induction l with
  | nil => rfl
  | cons a as ih => simp [ih]

theorem runSession_eq_map (env : RunUnit → UnitOutcome) (plan : List RunUnit)
    (h : ∀ u ∈ plan, isFatal (env u) = false) :
    runSession env plan = plan.map (fun u => ⟨u, outcomeStatus (env u)⟩) := by
  induction plan with
  | nil => rfl
  | cons u rest ih =>
    have hu := h u (List.mem_cons_self u rest)
    have hrest := ih (fun a ha => h a (List.mem_cons_of_mem _ ha))
    simp [runSession, hu, hrest]

/-- C1: for every configuration (with a duplicate-free storage-type list)
the plan's size is |enabled databases| × |enabled scenarios| ×
(|non-nfs storage types| + nfs-indicator × |nfs versions|); and the spec's
example configuration yields exactly the two RunUnits
(postgresql, direct, read_heavy) and (postgresql, nfs/v3, read_heavy). -/
theorem spec_C1 :
    (∀ c : BenchmarkConfig, c.storage_types.Nodup →
        (buildPlan c).length = planSizeFormula c) ∧
    buildPlan exampleConfig =
      [⟨"postgresql", ⟨StorageType.direct, none⟩, "read_heavy"⟩,
       ⟨"postgresql", ⟨StorageType.nfs, some NfsVersion.v3⟩, "read_heavy"⟩] := by
  constructor
  · intro c h
    have h1 : ∀ d ∈ c.databases.filter (fun d => d.enabled),
        ((storageConfigs c).flatMap (fun st =>
          (c.scenarios.filter (fun s => s.enabled)).map (fun s =>
            RunUnit.mk d.kind st s.name))).length =
          (storageConfigs c).length *
            (c.scenarios.filter (fun s => s.enabled)).length := by
      intro d _
      exact length_flatMap_const _ _ _ (fun st _ => by simp)
    have h2 : (buildPlan c).length =
        (c.databases.filter (fun d => d.enabled)).length *
          ((storageConfigs c).length *
            (c.scenarios.filter (fun s => s.enabled)).length) :=
      length_flatMap_const _ _ _ h1
    rw [h2]
    simp only [storageConfigs]
    rw [expandStorage_length c.nfs_versions c.storage_types h]
    unfold planSizeFormula
    ring
  · rfl

/-- C1 witness: the size invariant evaluated on the example configuration. -/
theorem spec_C1_witness :
    (buildPlan exampleConfig).length = planSizeFormula exampleConfig :=
  spec_C1.1 exampleConfig (by decide)

/-- C2: the plan builder is deterministic — the unit sequence and total
count do not depend on the generation timestamp — and the units a real
(non-fatal) execution processes are exactly the units the dry run shows. -/
theorem spec_C2 :
    (∀ (c : BenchmarkConfig) (t₁ t₂ : Nat),
        (buildExecutionPlan c t₁).units = (buildExecutionPlan c t₂).units ∧
        (buildExecutionPlan c t₁).totalCount = (buildExecutionPlan c t₂).totalCount) ∧
    (∀ (c : BenchmarkConfig) (env : RunUnit → UnitOutcome) (st : InfraState),
        (∀ u ∈ buildPlan c, isFatal (env u) = false) →
        (runSession env (buildPlan c)).map (fun r => r.unit) =
          (showExecutionPlan c st).1) := by
  constructor
  · intro c t₁ t₂
    exact ⟨rfl, rfl⟩
  · intro c env st h
    rw [runSession_eq_map env _ h]
    exact map_unit_of_map_mk env (buildPlan c)

/-- C2 witness: on the example configuration with an always-successful
environment, the executed units equal the shown plan. -/
theorem spec_C2_witness :
    (runSession (fun _ => UnitOutcome.success) (buildPlan exampleConfig)).map
        (fun r => r.unit) =
      (showExecutionPlan exampleConfig ⟨[], []⟩).1 :=
  spec_C2.2 exampleConfig (fun _ => UnitOutcome.success) ⟨[], []⟩ (fun _ _ => rfl)

/-- C7: when no unit's outcome is Fatal, the session records exactly one
RunResult per RunUnit in plan order, each carrying the status of its
outcome (Failed/TimedOut results occupy their slot, nothing is omitted);
a Fatal outcome halts the session after recording the failing unit. -/
theorem spec_C7 :
    (∀ (env : RunUnit → UnitOutcome) (plan : List RunUnit),
        (∀ u ∈ plan, isFatal (env u) = false) →
        runSession env plan = plan.map (fun u => ⟨u, outcomeStatus (env u)⟩)) ∧
    (∀ (env : RunUnit → UnitOutcome) (u : RunUnit) (rest : List RunUnit),
        isFatal (env u) = true →
        runSession env (u :: rest) = [⟨u, outcomeStatus (env u)⟩]) := by
  constructor
  · exact runSession_eq_map
  · intro env u rest h
    simp [runSession, h]

/-- C7 witness: an all-timeout session on the example plan records a
TimedOut result in every slot in plan order, and a fatal first unit halts
the session with the single recorded failure. -/
theorem spec_C7_witness :
    runSession (fun _ => UnitOutcome.timedOut) (buildPlan exampleConfig) =
        (buildPlan exampleConfig).map (fun u => ⟨u, RunStatus.TimedOut⟩) ∧
    runSession (fun _ => UnitOutcome.infraFailure true)
        ((⟨"postgresql", ⟨StorageType.direct, none⟩, "read_heavy"⟩ : RunUnit) ::
          [⟨"postgresql", ⟨StorageType.nfs, some NfsVersion.v3⟩, "read_heavy"⟩]) =
      [⟨⟨"postgresql", ⟨StorageType.direct, none⟩, "read_heavy"⟩, RunStatus.Failed⟩] := by
  constructor
  · exact spec_C7.1 _ _ (fun _ _ => rfl)
  · exact spec_C7.2 _ _ _ rfl

theorem lookupStatus_setStatus (st : InfraState) (name : String)
    (s : ServiceStatus) : lookupStatus (setStatus st name s) name = s := by
  simp [lookupStatus, setStatus, List.lookup]

theorem addMount_services (st : InfraState) (name : String) :
    (addMount st name).services = st.services := by
  unfold addMount
  split <;> rfl

theorem lookupStatus_addMount (st : InfraState) (name n : String) :
    lookupStatus (addMount st name) n = lookupStatus st n := by
  simp [lookupStatus, addMount_services]

theorem addMount_mounts_nodup (st : InfraState) (name : String)
    (h : st.mounts.Nodup) : (addMount st name).mounts.Nodup := by
  unfold addMount
  by_cases hc : name ∈ st.mounts
  · simpa [hc] using h
  · simp [hc, h, List.nodup_cons]

/-- C3: each override operation is pure in the embedding — a function of
the model returning an updated model — and touches only its own field:
setting the output directory leaves databases, scenarios, storage types
and nfs versions unchanged, and correspondingly for the database filter,
the scenario filter and the nfs-version override. -/
theorem spec_C3 :
    (∀ (c : BenchmarkConfig) (o : Option String),
        (overrideOutputDir c o).databases = c.databases ∧
        (overrideOutputDir c o).scenarios = c.scenarios ∧
        (overrideOutputDir c o).storage_types = c.storage_types ∧
        (overrideOutputDir c o).nfs_versions = c.nfs_versions) ∧
    (∀ (c : BenchmarkConfig) (dbs : List String),
        (overrideDatabases c dbs).output_dir = c.output_dir ∧
        (overrideDatabases c dbs).scenarios = c.scenarios ∧
        (overrideDatabases c dbs).storage_types = c.storage_types ∧
        (overrideDatabases c dbs).nfs_versions = c.nfs_versions) ∧
    (∀ (c : BenchmarkConfig) (names : List String),
        (overrideScenarios c names).output_dir = c.output_dir ∧
        (overrideScenarios c names).databases = c.databases ∧
        (overrideScenarios c names).storage_types = c.storage_types ∧
        (overrideScenarios c names).nfs_versions = c.nfs_versions) ∧
    (∀ (c : BenchmarkConfig) (vs : List NfsVersion),
        (overrideNfsVersions c vs).output_dir = c.output_dir ∧
        (overrideNfsVersions c vs).databases = c.databases ∧
        (overrideNfsVersions c vs).scenarios = c.scenarios ∧
        (overrideNfsVersions c vs).storage_types = c.storage_types) := by
  refine ⟨?_, ?_, ?_, ?_⟩
  · intro c o
    cases o <;> exact ⟨rfl, rfl, rfl, rfl⟩
  · intro c dbs
    unfold overrideDatabases
    split <;> exact ⟨rfl, rfl, rfl, rfl⟩
  · intro c names
    unfold overrideScenarios
    split <;> exact ⟨rfl, rfl, rfl, rfl⟩
  · intro c vs
    unfold overrideNfsVersions
    split <;> exact ⟨rfl, rfl, rfl, rfl⟩

/-- C4: the run pipeline validates the overridden model again; validation
yields the matching ConfigError on unknown engine kind, duplicate scenario
name, empty enabled set and malformed storage option; in particular a
configuration whose enabled scenario set is empty after the overrides
never produces a plan, and a model that validates produces exactly the
plan of the overridden configuration. -/
theorem spec_C4 :
    (∀ (raw : BenchmarkConfig) (output : Option String) (dbs scens : List String)
        (vs : List NfsVersion),
        (appliedConfig raw output dbs scens vs).scenarios.filter
            (fun s => s.enabled) = [] →
        exceptIsOk (runPipeline raw output dbs scens vs) = false) ∧
    (∀ c : BenchmarkConfig, hasUnknownKind c = true →
        validate c = Except.error ConfigError.unknownEngineKind) ∧
    (∀ c : BenchmarkConfig, hasUnknownKind c = false → hasDupScenario c = true →
        validate c = Except.error ConfigError.duplicateScenarioName) ∧
    (∀ c : BenchmarkConfig, hasUnknownKind c = false → hasDupScenario c = false →
        emptyEnabled c = true →
        validate c = Except.error ConfigError.emptyEnabledSet) ∧
    (∀ c : BenchmarkConfig, hasUnknownKind c = false → hasDupScenario c = false →
        emptyEnabled c = false → badStorage c = true →
        validate c = Except.error ConfigError.malformedStorageOption) ∧
    (∀ (raw : BenchmarkConfig) (output : Option String) (dbs scens : List String)
        (vs : List NfsVersion),
        validate (appliedConfig raw output dbs scens vs) = Except.ok () →
        runPipeline raw output dbs scens vs =
          Except.ok (buildPlan (appliedConfig raw output dbs scens vs))) := by
  refine ⟨?_, ?_, ?_, ?_, ?_, ?_⟩
  · intro raw output dbs scens vs h
    have hempty : emptyEnabled (appliedConfig raw output dbs scens vs) = true := by
      simp [emptyEnabled, h]
    cases hk : hasUnknownKind (appliedConfig raw output dbs scens vs) <;>
      cases hd : hasDupScenario (appliedConfig raw output dbs scens vs) <;>
        simp [runPipeline, validate, hk, hd, hempty, exceptIsOk]
  · intro c h1
    simp [validate, h1]
  · intro c h1 h2
    simp [validate, h1, h2]
  · intro c h1 h2 h3
    simp [validate, h1, h2, h3]
  · intro c h1 h2 h3 h4
    simp [validate, h1, h2, h3, h4]
  · intro raw output dbs scens vs h
    simp [runPipeline, h]

/-- C4 witness: each validation error and the re-validated pipeline
evaluated at concrete configurations; filtering the example config's
scenarios to a name it does not contain yields an error, not a plan. -/
theorem spec_C4_witness :
    exceptIsOk (runPipeline exampleConfig none [] ["nope"] []) = false ∧
    validate cfgUnknown = Except.error ConfigError.unknownEngineKind ∧
    validate cfgDup = Except.error ConfigError.duplicateScenarioName ∧
    validate cfgEmptyEnabled = Except.error ConfigError.emptyEnabledSet ∧
    validate cfgBadStorage = Except.error ConfigError.malformedStorageOption ∧
    runPipeline exampleConfig none [] [] [] = Except.ok (buildPlan exampleConfig) :=
  ⟨spec_C4.1 exampleConfig none [] ["nope"] [] (by decide),
   spec_C4.2.1 cfgUnknown (by decide),
   spec_C4.2.2.1 cfgDup (by decide) (by decide),
   spec_C4.2.2.2.1 cfgEmptyEnabled (by decide) (by decide) (by decide),
   spec_C4.2.2.2.2.1 cfgBadStorage (by decide) (by decide) (by decide) (by decide),
   spec_C4.2.2.2.2.2 exampleConfig none [] [] [] (by rfl)⟩

/-- C5: the dry-run branch of the run command only projects the plan: the
infrastructure state after it is the state before it, so every managed
service keeps its pre-call status. -/
theorem spec_C5 :
    ∀ (raw : BenchmarkConfig) (output : Option String) (dbs scens : List String)
      (vs : List NfsVersion) (st : InfraState),
      (runDryRunBranch raw output dbs scens vs st).2 = st ∧
      (∀ name, lookupStatus (runDryRunBranch raw output dbs scens vs st).2 name =
        lookupStatus st name) := by
  intro raw output dbs scens vs st
  exact ⟨rfl, fun _ => rfl⟩

/-- C6: with a healthy environment, startService succeeds and leaves the
service Running; the immediately repeated call is a no-op success
returning the identical state (hence no duplicate resource is created),
and a duplicate-free mount set stays duplicate-free. -/
theorem spec_C6 :
    ∀ (st : InfraState) (name : String) (isMountService : Bool),
      (startService st name isMountService true).1 = Except.ok () ∧
      lookupStatus (startService st name isMountService true).2 name =
        ServiceStatus.Running ∧
      startService (startService st name isMountService true).2 name
          isMountService true =
        (Except.ok (), (startService st name isMountService true).2) ∧
      (st.mounts.Nodup → (startService st name isMountService true).2.mounts.Nodup) := by
  intro st name m
  by_cases hrun : lookupStatus st name = ServiceStatus.Running
  · refine ⟨by simp [startService, hrun], by simp [startService, hrun], ?_, ?_⟩
    · simp [startService, hrun]
    · intro hnd
      simpa [startService, hrun] using hnd
  · have h2 : startService st name m true =
        (Except.ok (),
          if m then addMount (setStatus st name ServiceStatus.Running) name
          else setStatus st name ServiceStatus.Running) := by
      simp [startService, hrun]
    have hA : lookupStatus (startService st name m true).2 name =
        ServiceStatus.Running := by
      rw [h2]
      cases m
      · simpa using lookupStatus_setStatus st name ServiceStatus.Running
      · simpa [lookupStatus_addMount] using
          lookupStatus_setStatus st name ServiceStatus.Running
    refine ⟨by rw [h2], hA, ?_, ?_⟩
    · have hA' : lookupStatus
          (if m then addMount (setStatus st name ServiceStatus.Running) name
           else setStatus st name ServiceStatus.Running) name =
          ServiceStatus.Running := by
        rw [h2] at hA
        simpa using hA
      rw [h2]
      simp [startService, hA']
    · intro hnd
      rw [h2]
      cases m
      · simpa [setStatus] using hnd
      · exact addMount_mounts_nodup _ _ (by simpa [setStatus] using hnd)

/-- C6 witness: starting the nfs mount service twice from the empty state
succeeds twice, ends Running, repeats as a no-op, and mounts once. -/
theorem spec_C6_witness :
    (startService ⟨[], []⟩ "nfs-server" true true).1 = Except.ok () ∧
    lookupStatus (startService ⟨[], []⟩ "nfs-server" true true).2 "nfs-server" =
      ServiceStatus.Running ∧
    startService (startService ⟨[], []⟩ "nfs-server" true true).2 "nfs-server"
        true true =
      (Except.ok (), (startService ⟨[], []⟩ "nfs-server" true true).2) ∧
    (startService ⟨[], []⟩ "nfs-server" true true).2.mounts.Nodup := by
  have h := spec_C6 ⟨[], []⟩ "nfs-server" true
  exact ⟨h.1, h.2.1, h.2.2.1, h.2.2.2 (by decide)⟩

/-- C8: the run command exits 0 exactly on the dry-run branch or a truthy
run_all result, and exits non-zero exactly when run_all reports no
results or an exception is raised. -/
theorem spec_C8 :
    ∀ t : TryOutcome,
      (runExitCode t = 0 ↔
        (t = TryOutcome.dryRun ∨ ∃ dir, t = TryOutcome.results dir)) ∧
      (runExitCode t ≠ 0 ↔
        (t = TryOutcome.noResults ∨ ∃ msg, t = TryOutcome.raised msg)) := by
  intro t
  cases t <;> simp [runExitCode]

/-- C9: a non-empty databases filter sets every database's enabled flag to
exactly its membership in the filter — a database disabled in the file
becomes enabled when named. -/
theorem spec_C9 :
    ∀ (c : BenchmarkConfig) (dbs : List String), dbs ≠ [] →
      (overrideDatabases c dbs).databases =
        c.databases.map (fun d => ⟨d.kind, dbs.contains d.kind⟩) := by
  intro c dbs h
  match dbs, h with
  | x :: xs, _ => rfl

/-- C9 witness: filtering the example configuration to mysql enables the
file-disabled mysql and disables postgresql. -/
theorem spec_C9_witness :
    (overrideDatabases exampleConfig ["mysql"]).databases =
      exampleConfig.databases.map
        (fun d => ⟨d.kind, (["mysql"] : List String).contains d.kind⟩) :=
  spec_C9 exampleConfig ["mysql"] (by decide)

/-- C10: stop without force and a declined confirmation returns at once —
exit code 0, stop_all never called, infrastructure state unchanged —
whatever the stop_all implementation would have done. -/
theorem spec_C10 :
    ∀ (st : InfraState) (stopAllImpl : InfraState → Except String InfraState),
      stopCommand false false st stopAllImpl = ⟨0, false, st⟩ := by
  intro st impl
  rfl

end NfsBench
